import Mathlib

/-!
Shallow embedding of the `pcax` repository's glue code: the experiment
configuration records (YAML files), the job-submission shell wrapper, and
the `training_stability.ipynb` notebook's `plot_lineplots` / `mark_max`
functions.  Scalars appearing in the source files are embedded as
rationals (`ℚ`).
-/

namespace Pcax

/-- A scalar or list value occurring in a YAML configuration file. -/
inductive Leaf where
  | num (q : ℚ)
  | str (s : String)
  | boolean (b : Bool)
  | null
  | list (xs : List Leaf)

/-- One entry of a configuration record: the path of keys from the root of
the YAML document down to a scalar/list value, and that value. -/
abbrev ConfigEntry := List String × Leaf

/-- A configuration record, flattened to (key-path, value) pairs in document
order. -/
abbrev Config := List ConfigEntry

/-- `src/unnamed/part_000`: the sweep-grid experiment configuration
(two_moons sweep over widths, learning rates, optimizers, momenta and
activation functions). -/
def sweepGridConfig : Config :=
  [ (["defaults", "data"], .str "two_moons")
  , (["optim", "num_epochs"], .num 8)
  , (["optim", "h", "optimizer"], .str "sgd")
  , (["optim", "h", "T"], .num 8)
  , (["experiment", "h_dims"], .list [.num 512, .num 1024, .num 2048, .num 4096])
  , (["experiment", "h_lr"],
      .list [.num 0.001, .num 0.003, .num 0.01, .num 0.03, .num 0.1, .num 0.3, .num 1.0])
  , (["experiment", "w_lr"],
      .list [.num 0.00001, .num 0.0001, .num 0.001, .num 0.01, .num 0.1])
  , (["experiment", "optimizer_w"], .list [.str "sgd", .str "adamw"])
  , (["experiment", "momentum_w"], .list [.num 0.0, .num 0.5, .num 0.9, .num 0.95])
  , (["experiment", "activation_fn"], .list [.str "leaky_relu", .str "hard_tanh"])
  , (["experiment", "seeds"], .num 3)
  , (["model", "definition"], .str "PC")
  , (["model", "init_h"], .str "forward")
  , (["model", "init_h_sd"], .num 0.1)
  , (["model", "constant_layer_size"], .boolean false)
  , (["model", "init_w"], .str "default")
  , (["run", "n_parallel"], .num 1)
  , (["run", "reload_data"], .boolean false)
  , (["run", "jit"], .boolean true)
  ]

/-- `src/unnamed/part_001`: the mnist linear-autoencoder hypertune
configuration. -/
def mnistHypertuneConfig : Config :=
  [ (["direction"], .str "minimize")
  , (["gpus_per_task"], .num 1)
  , (["dataset_name"], .str "mnist")
  , (["seed"], .num 4)
  , (["hp", "layer_dims"], .list [.num 64, .num 128, .num 128, .num 784])
  , (["hp", "act_fn", "sample_type"], .str "categorical")
  , (["hp", "act_fn", "sample_space"],
      .list [.str "relu", .str "leaky_relu", .str "gelu", .str "tanh", .str "hard_tanh"])
  , (["hp", "act_fn", "default"], .str "hard_tanh")
  , (["hp", "output_act_fn"], .null)
  , (["hp", "batch_size"], .num 200)
  , (["hp", "epochs"], .num 30)
  , (["hp", "T"], .num 20)
  , (["hp", "use_ipc"], .boolean false)
  , (["hp", "optim", "x", "lr", "sample_type"], .str "float")
  , (["hp", "optim", "x", "lr", "sample_space"],
      .list [.list [.num 0.01, .num 0.5], .null, .boolean true])
  , (["hp", "optim", "x", "lr", "default"], .num 0.019849750737164974)
  , (["hp", "optim", "x", "momentum", "sample_type"], .str "float")
  , (["hp", "optim", "x", "momentum", "sample_space"],
      .list [.list [.num 0.0, .num 0.95], .num 0.05])
  , (["hp", "optim", "x", "momentum", "default"], .num 0.15)
  , (["hp", "optim", "w", "name"], .str "adamw")
  , (["hp", "optim", "w", "lr", "sample_type"], .str "float")
  , (["hp", "optim", "w", "lr", "sample_space"],
      .list [.list [.num 0.00003, .num 0.001], .null, .boolean true])
  , (["hp", "optim", "w", "lr", "default"], .num 0.0003401383559476183)
  , (["hp", "optim", "w", "wd", "sample_type"], .str "float")
  , (["hp", "optim", "w", "wd", "sample_space"],
      .list [.list [.num 0.00001, .num 0.01], .null, .boolean true])
  , (["hp", "optim", "w", "wd", "default"], .num 0.000012514685116492747)
  , (["hp", "optim", "w", "momentum"], .num 0.0)
  ]

/-- `src/examples/s4_2_generative_mode/autoencoders/linear/configs/pc_fashionmnist_adamw_hypertune.yaml`. -/
def fashionMnistAdamwConfig : Config :=
  [ (["direction"], .str "minimize")
  , (["gpus_per_task"], .num 1)
  , (["dataset_name"], .str "fashion_mnist")
  , (["seed"], .num 4)
  , (["hp", "layer_dims"], .list [.num 64, .num 128, .num 128, .num 784])
  , (["hp", "act_fn", "sample_type"], .str "categorical")
  , (["hp", "act_fn", "sample_space"],
      .list [.str "relu", .str "leaky_relu", .str "gelu", .str "tanh", .str "hard_tanh"])
  , (["hp", "act_fn", "default"], .str "hard_tanh")
  , (["hp", "output_act_fn"], .null)
  , (["hp", "batch_size"], .num 200)
  , (["hp", "epochs"], .num 30)
  , (["hp", "T"], .num 20)
  , (["hp", "use_ipc"], .boolean false)
  , (["hp", "optim", "x", "lr", "sample_type"], .str "float")
  , (["hp", "optim", "x", "lr", "sample_space"],
      .list [.list [.num 0.01, .num 0.5], .null, .boolean true])
  , (["hp", "optim", "x", "lr", "default"], .num 0.011910178174048628)
  , (["hp", "optim", "x", "momentum", "sample_type"], .str "float")
  , (["hp", "optim", "x", "momentum", "sample_space"],
      .list [.list [.num 0.0, .num 0.95], .num 0.05])
  , (["hp", "optim", "x", "momentum", "default"], .num 0.45)
  , (["hp", "optim", "w", "name"], .str "adamw")
  , (["hp", "optim", "w", "lr", "sample_type"], .str "float")
  , (["hp", "optim", "w", "lr", "sample_space"],
      .list [.list [.num 0.00003, .num 0.001], .null, .boolean true])
  , (["hp", "optim", "w", "lr", "default"], .num 0.0005149979608369072)
  , (["hp", "optim", "w", "wd", "sample_type"], .str "float")
  , (["hp", "optim", "w", "wd", "sample_space"],
      .list [.list [.num 0.00001, .num 0.01], .null, .boolean true])
  , (["hp", "optim", "w", "wd", "default"], .num 0.00007382135878282121)
  , (["hp", "optim", "w", "momentum"], .num 0.0)
  ]

/-- `src/examples/s4_2_generative_mode/autoencoders/deconv/configs/pc_cifar10_sgd_hypertune.yaml`. -/
def cifar10SgdConfig : Config :=
  [ (["direction"], .str "minimize")
  , (["gpus_per_task"], .num 1)
  , (["dataset_name"], .str "cifar10")
  , (["seed"], .num 0)
  , (["hp", "num_layers"], .num 3)
  , (["hp", "internal_state_dim"], .num 4)
  , (["hp", "internal_state_channels"], .num 8)
  , (["hp", "kernel_size", "sample_type"], .str "categorical")
  , (["hp", "kernel_size", "sample_space"], .list [.num 3, .num 4, .num 5, .num 7])
  , (["hp", "kernel_size", "default"], .num 4)
  , (["hp", "act_fn", "sample_type"], .str "categorical")
  , (["hp", "act_fn", "sample_space"],
      .list [.str "relu", .str "leaky_relu", .str "gelu", .str "tanh", .str "hard_tanh"])
  , (["hp", "act_fn", "default"], .str "tanh")
  , (["hp", "output_act_fn"], .null)
  , (["hp", "batch_size"], .num 200)
  , (["hp", "epochs"], .num 30)
  , (["hp", "T"], .num 20)
  , (["hp", "use_ipc"], .boolean false)
  , (["hp", "optim", "x", "lr", "sample_type"], .str "float")
  , (["hp", "optim", "x", "lr", "sample_space"],
      .list [.list [.num 0.01, .num 0.5], .null, .boolean true])
  , (["hp", "optim", "x", "lr", "default"], .num 0.3686335775128242)
  , (["hp", "optim", "x", "momentum", "sample_type"], .str "float")
  , (["hp", "optim", "x", "momentum", "sample_space"],
      .list [.list [.num 0.0, .num 0.95], .num 0.05])
  , (["hp", "optim", "x", "momentum", "default"], .num 0.55)
  , (["hp", "optim", "w", "name"], .str "sgd")
  , (["hp", "optim", "w", "lr", "sample_type"], .str "float")
  , (["hp", "optim", "w", "lr", "sample_space"],
      .list [.list [.num 0.00003, .num 0.01], .null, .boolean true])
  , (["hp", "optim", "w", "lr", "default"], .num 0.0009158349688429868)
  , (["hp", "optim", "w", "wd", "sample_type"], .str "float")
  , (["hp", "optim", "w", "wd", "sample_space"],
      .list [.list [.num 0.00001, .num 0.01], .null, .boolean true])
  , (["hp", "optim", "w", "wd", "default"], .num 0.005516419568456441)
  , (["hp", "optim", "w", "momentum", "sample_type"], .str "float")
  , (["hp", "optim", "w", "momentum", "sample_space"],
      .list [.list [.num 0.0, .num 0.95], .num 0.05])
  , (["hp", "optim", "w", "momentum", "default"], .num 0.45)
  ]

/-- `src/examples/s4_2_generative_mode/autoencoders/deconv/configs/pc_cifar10_adamw_hypertune.yaml`. -/
def cifar10AdamwConfig : Config :=
  [ (["direction"], .str "minimize")
  , (["gpus_per_task"], .num 1)
  , (["dataset_name"], .str "cifar10")
  , (["seed"], .num 0)
  , (["hp", "num_layers"], .num 3)
  , (["hp", "internal_state_dim"], .num 4)
  , (["hp", "internal_state_channels"], .num 8)
  , (["hp", "kernel_size", "sample_type"], .str "categorical")
  , (["hp", "kernel_size", "sample_space"], .list [.num 3, .num 4, .num 5, .num 7])
  , (["hp", "kernel_size", "default"], .num 4)
  , (["hp", "act_fn", "sample_type"], .str "categorical")
  , (["hp", "act_fn", "sample_space"],
      .list [.str "relu", .str "leaky_relu", .str "gelu", .str "tanh", .str "hard_tanh"])
  , (["hp", "act_fn", "default"], .str "hard_tanh")
  , (["hp", "output_act_fn"], .null)
  , (["hp", "batch_size"], .num 200)
  , (["hp", "epochs"], .num 30)
  , (["hp", "T"], .num 20)
  , (["hp", "use_ipc"], .boolean false)
  , (["hp", "optim", "x", "lr", "sample_type"], .str "float")
  , (["hp", "optim", "x", "lr", "sample_space"],
      .list [.list [.num 0.01, .num 0.5], .null, .boolean true])
  , (["hp", "optim", "x", "lr", "default"], .num 0.016660532913375187)
  , (["hp", "optim", "x", "momentum", "sample_type"], .str "float")
  , (["hp", "optim", "x", "momentum", "sample_space"],
      .list [.list [.num 0.0, .num 0.95], .num 0.05])
  , (["hp", "optim", "x", "momentum", "default"], .num 0.05)
  , (["hp", "optim", "w", "name"], .str "adamw")
  , (["hp", "optim", "w", "lr", "sample_type"], .str "float")
  , (["hp", "optim", "w", "lr", "sample_space"],
      .list [.list [.num 0.00003, .num 0.001], .null, .boolean true])
  , (["hp", "optim", "w", "lr", "default"], .num 0.000897883696520861)
  , (["hp", "optim", "w", "wd", "sample_type"], .str "float")
  , (["hp", "optim", "w", "wd", "sample_space"],
      .list [.list [.num 0.00001, .num 0.01], .null, .boolean true])
  , (["hp", "optim", "w", "wd", "default"], .num 0.00992856858997552)
  , (["hp", "optim", "w", "momentum"], .num 0.0)
  ]

/-- All experiment configuration records present in the repository. -/
def allConfigs : List Config :=
  [sweepGridConfig, mnistHypertuneConfig, fashionMnistAdamwConfig,
   cifar10SgdConfig, cifar10AdamwConfig]

/-- The hypertune configuration records (those consumed by the tuning driver). -/
def hypertuneConfigs : List Config :=
  [mnistHypertuneConfig, fashionMnistAdamwConfig, cifar10SgdConfig, cifar10AdamwConfig]

/-- Does the record contain an entry at exactly this key path? -/
def hasPath (c : Config) (p : List String) : Bool :=
  c.any (fun e => e.1 == p)

/-- The three fields of a sampling specification. -/
def samplingSpecFields : List String := ["sample_type", "sample_space", "default"]

/-- Every hyperparameter annotated with any sampling-specification field
carries all three of `sample_type`, `sample_space` and `default` (as sibling
keys under the same hyperparameter node). -/
def samplingSpecsComplete (c : Config) : Bool :=
  c.all (fun e =>
    match e.1.getLast? with
    | some k =>
        if samplingSpecFields.contains k then
          samplingSpecFields.all (fun f => hasPath c (e.1.dropLast ++ [f]))
        else true
    | none => true)

/-- Does the record contain a node named `k` anywhere in its hierarchy,
i.e. an entry whose key path passes through `k`?  (In the hypertune files a
hyperparameter such as `lr` is an interior node whose leaves are its
sampling-specification fields.) -/
def hasKey (c : Config) (k : String) : Bool :=
  c.any (fun e => e.1.contains k)

/-- Does the record contain an entry whose innermost key is one of `ks`? -/
def hasAnyKey (c : Config) (ks : List String) : Bool :=
  ks.any (hasKey c)

/-- Learning rates (`h_lr`/`w_lr` in the sweep grid, `lr` in hypertune files). -/
def hasLearningRate (c : Config) : Bool := hasAnyKey c ["h_lr", "w_lr", "lr"]

/-- Momentum (`momentum_w` in the sweep grid, `momentum` in hypertune files). -/
def hasMomentum (c : Config) : Bool := hasAnyKey c ["momentum", "momentum_w"]

/-- Weight decay (`wd`). -/
def hasWeightDecay (c : Config) : Bool := hasAnyKey c ["wd", "weight_decay"]

/-- Layer dimensions (`h_dims` in the sweep grid, `layer_dims` in hypertune files). -/
def hasLayerDims (c : Config) : Bool := hasAnyKey c ["h_dims", "layer_dims", "hidden_dims"]

/-- Activation function choice (`activation_fn`/`act_fn`). -/
def hasActivationFn (c : Config) : Bool := hasAnyKey c ["activation_fn", "act_fn"]

/-- Optimizer name (`optimizer`/`optimizer_w` in the sweep grid, `optim.*.name`
in hypertune files). -/
def hasOptimizerName (c : Config) : Bool := hasAnyKey c ["optimizer", "optimizer_w", "name"]

/-- Number of relaxation steps `T`. -/
def hasRelaxationT (c : Config) : Bool := hasKey c "T"

/-- Epoch count (`num_epochs`/`epochs`). -/
def hasEpochs (c : Config) : Bool := hasAnyKey c ["num_epochs", "epochs"]

/-- Batch size. -/
def hasBatchSize (c : Config) : Bool := hasKey c "batch_size"

/-- All nine hyperparameter kinds listed by the data-model description. -/
def hasAllNineHyperparameters (c : Config) : Bool :=
  hasLearningRate c && hasMomentum c && hasWeightDecay c && hasLayerDims c &&
  hasActivationFn c && hasOptimizerName c && hasRelaxationT c && hasEpochs c &&
  hasBatchSize c

/-- The value stored at a key path, if present. -/
def lookupPath (c : Config) (p : List String) : Option Leaf :=
  (c.find? (fun e => e.1 == p)).map (fun e => e.2)

/-- Does the record request exactly one GPU per task? -/
def requestsOneGpuPerTask (c : Config) : Bool :=
  match lookupPath c ["gpus_per_task"] with
  | some (.num q) => q == 1
  | _ => false

/-! ## The job-submission shell wrapper (`src/unnamed/part_002`)

```
study=$1
python -m stune --exe bp_hypertune --study bp_${study} --gpus "0,1,2,3,4,5,6,7"
  --n_trials 32:8 --tuner ssh --config bp_${study}_hypertune.yaml
```
-/

/-- A single `python -m <module>` invocation with its flag/value pairs, in
command-line order. -/
structure StuneInvocation where
  module : String
  args : List (String × String)
deriving DecidableEq

/-- The shell wrapper: `study` is its single positional argument `$1`. -/
def runScript (study : String) : StuneInvocation :=
  { module := "stune"
  , args :=
      [ ("--exe", "bp_hypertune")
      , ("--study", "bp_" ++ study)
      , ("--gpus", "0,1,2,3,4,5,6,7")
      , ("--n_trials", "32:8")
      , ("--tuner", "ssh")
      , ("--config", "bp_" ++ study ++ "_hypertune.yaml") ] }

/-- The value passed for a given flag, if any. -/
def flagValue (inv : StuneInvocation) (flag : String) : Option String :=
  (inv.args.find? (fun a => a.1 == flag)).map (fun a => a.2)

/-! ## The notebook `training_stability.ipynb` -/

/-- Is `pat` a contiguous substring of `s`?  (Embeds pandas
`Series.str.contains` for a plain, non-regex pattern.) -/
def charsContain (pat : List Char) : List Char → Bool
  | [] => pat.isEmpty
  | c :: cs => pat.isPrefixOf (c :: cs) || charsContain pat cs

/-- String containment, `pat` occurring contiguously inside `s`. -/
def strContains (s pat : String) : Bool :=
  charsContain pat.data s.data

/-- One row of the results DataFrame, restricted to the columns that
`plot_lineplots` reads: `condition`, `config.h_lr`,
`experiment.data.dataset`, `config.hidden_dims`, `results.accuracy`. -/
structure Row where
  condition : String
  h_lr : ℚ
  dataset : String
  hidden_dims : ℚ
  accuracy : ℚ
deriving DecidableEq

/-- A DataFrame: its rows in order. -/
abbrev DataFrame := List Row

/-- The literal `0.3` of the notebook.  (Written in constructor form so the
kernel can evaluate comparisons; `ratPointThree_eq` checks it equals `0.3`.) -/
def ratPointThree : ℚ := mkRat 3 10

/-- The literal `0.1` of the notebook. -/
def ratPointOne : ℚ := mkRat 1 10

/-- The row filter of `plot_lineplots`:
`mask_bp = results["condition"].str.contains("BP")`,
`mask_pc = results["condition"].str.contains("PC") & (results["config.h_lr"] < 0.3)`. -/
def condMask (r : Row) : Bool :=
  strContains r.condition "BP" || (strContains r.condition "PC" && decide (r.h_lr < ratPointThree))

/-- `results = results[mask_bp | mask_pc]`. -/
def filterStep (df : DataFrame) : DataFrame :=
  df.filter condMask

/-- Python objects are references; DataFrames live in a heap and a variable
holds a pointer.  Allocation appends; `copy()` allocates a fresh cell. -/
abbrev Heap := List DataFrame
abbrev Ptr := Nat

/-- Dereference (an absent cell reads as the empty frame). -/
def heapGet (h : Heap) (p : Ptr) : DataFrame := h.getD p []

/-- Allocate a fresh DataFrame, returning the new heap and its pointer. -/
def heapAlloc (h : Heap) (df : DataFrame) : Heap × Ptr :=
  (h ++ [df], h.length)

/-- Overwrite the cell at `p` (in-place mutation of the object `p` names). -/
def heapSet (h : Heap) (p : Ptr) (df : DataFrame) : Heap :=
  h.set p df

/-- In-place `results_condition_2["config.h_lr"] =
results_condition_2["config.h_lr"] + 0.1`. -/
def shiftHlr (df : DataFrame) : DataFrame :=
  df.map (fun r => { r with h_lr := r.h_lr + ratPointOne })

/-- One `sns.lineplot` call: the frame passed as `data=` and the column
names passed as `x=`, `y=` and `hue=`. -/
structure Lineplot where
  data : DataFrame
  x : String
  y : String
  hue : String
deriving DecidableEq

/-- What a call to `plot_lineplots` renders and saves: one lineplot per
experiment condition, and the path handed to `plt.savefig`. -/
structure PlotOutput where
  subplots : List (String × Lineplot)
  savedDir : String
  savedFile : String
deriving DecidableEq

/-- The three experiment conditions the notebook iterates over. -/
def plotConditions : List String := ["PC-sgd-0.9", "PC-adamw-0.9", "BP-sgd-0.9"]

/-- The filename handed to `plt.savefig`, joined onto the artifact
directory: `lr-scaling-lineplot-` + dataset + optional `-` + suffix + `.pdf`. -/
def plotFilename (dataset suffix : String) : String :=
  let sfx := if suffix.length > 0 then "-" ++ suffix else ""
  "lr-scaling-lineplot-" ++ dataset ++ sfx ++ ".pdf"

/-- The body of the `for i, condition in enumerate(...)` loop, producing one
subplot.  `p` points at the dataset-filtered frame.  In the `BP` branch the
loop copies the slice (`results_condition_2 = results_condition.copy()`),
shifts its `config.h_lr` column in place by `+0.1` and concatenates. -/
def subplotStep (p : Ptr) (acc : Heap × List (String × Lineplot)) (condition : String) :
    Heap × List (String × Lineplot) :=
  let h0 := acc.1
  -- results_condition = results.loc[results["condition"] == condition]
  let rc := (heapGet h0 p).filter (fun r => r.condition == condition)
  let h1 := (heapAlloc h0 rc).1
  let pc := (heapAlloc h0 rc).2
  if strContains condition "BP" then
    let h2 := (heapAlloc h1 (heapGet h1 pc)).1
    let pc2 := (heapAlloc h1 (heapGet h1 pc)).2
    let h3 := heapSet h2 pc2 (shiftHlr (heapGet h2 pc2))
    -- results_condition = pd.concat([results_condition, results_condition_2])
    let h4 := (heapAlloc h3 (heapGet h3 pc ++ heapGet h3 pc2)).1
    let pcc := (heapAlloc h3 (heapGet h3 pc ++ heapGet h3 pc2)).2
    (h4, acc.2 ++
      [(condition, ⟨heapGet h4 pcc, "config.h_lr", "results.accuracy", "config.hidden_dims"⟩)])
  else
    (h1, acc.2 ++
      [(condition, ⟨heapGet h1 pc, "config.h_lr", "results.accuracy", "config.hidden_dims"⟩)])

/-- `plot_lineplots(results, experiment_folder, dataset, suffix)`: returns the
final heap and the rendered/saved output.  (Axis styling, palettes and the
unused `h_lrs`/`h_dims` locals are presentation only and not modelled.) -/
def plot_lineplots (h : Heap) (results : Ptr) (experiment_folder dataset suffix : String) :
    Heap × PlotOutput :=
  -- results = results.copy()
  let h1 := (heapAlloc h (heapGet h results)).1
  let p1 := (heapAlloc h (heapGet h results)).2
  -- results = results[mask_bp | mask_pc]
  let h2 := (heapAlloc h1 (filterStep (heapGet h1 p1))).1
  let p2 := (heapAlloc h1 (filterStep (heapGet h1 p1))).2
  -- results = results.loc[results['experiment.data.dataset'] == dataset]
  let h3 := (heapAlloc h2 ((heapGet h2 p2).filter (fun r => r.dataset == dataset))).1
  let p3 := (heapAlloc h2 ((heapGet h2 p2).filter (fun r => r.dataset == dataset))).2
  let hp := plotConditions.foldl (subplotStep p3) (h3, [])
  (hp.1, ⟨hp.2, experiment_folder, plotFilename dataset suffix⟩)

/-- `h'` extends `h`: every cell of `h` is still present, unchanged. -/
def HeapGrows (h h' : Heap) : Prop :=
  h.length ≤ h'.length ∧ ∀ q, q < h.length → heapGet h' q = heapGet h q

/-! ## `mark_max`

```
max_acc = data.groupby("h_dim").apply(lambda x: x.loc[x["accuracy"].idxmax()])
            .reset_index(drop=True).sort_values("h_dim")
for i, row in max_acc.iterrows():
    plt.scatter(row["h_lr"], row["accuracy"], ...)
```
-/

/-- A row of the frame handed to `mark_max`: columns `h_dim`, `h_lr`,
`accuracy`. -/
structure RowM where
  h_dim : ℚ
  h_lr : ℚ
  accuracy : ℚ
deriving DecidableEq

/-- Insert into a sorted list of rationals. -/
def insertSorted (x : ℚ) : List ℚ → List ℚ
  | [] => [x]
  | y :: ys => if x ≤ y then x :: y :: ys else y :: insertSorted x ys

/-- Insertion sort on rationals (ascending). -/
def sortQ : List ℚ → List ℚ
  | [] => []
  | x :: xs => insertSorted x (sortQ xs)

/-- The distinct `h_dim` values, in ascending order: `groupby("h_dim")`
groups under sorted keys and `sort_values("h_dim")` keeps them sorted. -/
def groupKeys (rows : List RowM) : List ℚ :=
  sortQ ((rows.map RowM.h_dim).dedup)

/-- `idxmax` row: the first row of the group attaining the maximal
`accuracy`. -/
def maxAccRow (r0 : RowM) (rest : List RowM) : RowM :=
  rest.foldl (fun b r => if b.accuracy < r.accuracy then r else b) r0

/-- The `(h_lr, accuracy)` pair scattered for the group of `h_dim = d`,
if that group is non-empty. -/
def groupPoint (rows : List RowM) (d : ℚ) : Option (ℚ × ℚ) :=
  match rows.filter (fun r => r.h_dim == d) with
  | [] => none
  | r0 :: rest => some ((maxAccRow r0 rest).h_lr, (maxAccRow r0 rest).accuracy)

/-- `mark_max`: the list of `(x, y)` points handed to `plt.scatter`, one per
`h_dim` group, in ascending `h_dim` order. -/
def mark_max (rows : List RowM) : List (ℚ × ℚ) :=
  (groupKeys rows).filterMap (groupPoint rows)

/-! ## Error propagation

The repository's glue composes fallible external operations (loading the
results, rendering/saving the figure, executing the tuning driver) without
any `try`/`except` or shell error handling: the notebook cells call
`nb.load_data` then `plot_lineplots` directly, and the wrapper script is a
single `python -m stune` command.  The external operations are parameters
here; the repository code is the composition. -/

/-- The notebook's analysis run: load the results (external, fallible), run
`plot_lineplots` on them, then save the figure (external, fallible). -/
def notebookRun (load : Except String (Heap × Ptr))
    (savefig : String → String → Except String Unit)
    (experiment_folder dataset suffix : String) : Except String PlotOutput := do
  let (h, p) ← load
  let out := (plot_lineplots h p experiment_folder dataset suffix).2
  savefig out.savedDir out.savedFile
  pure out

/-- The wrapper script's run: build the `stune` command line and execute it
(external, fallible). -/
def wrapperRun (exec : StuneInvocation → Except String Unit) (study : String) :
    Except String Unit :=
  exec (runScript study)

/-! # Theorems -/

/-- Sanity bridge: the constructor-form constant equals the literal `0.3`. -/
theorem ratPointThree_eq : ratPointThree = (0.3 : ℚ) := by
  norm_num [ratPointThree]

/-- Sanity bridge: the constructor-form constant equals the literal `0.1`. -/
theorem ratPointOne_eq : ratPointOne = (0.1 : ℚ) := by
  norm_num [ratPointOne]

/-! ## Heap lemmas -/

theorem heapGet_append (h : Heap) (d : DataFrame) (q : Ptr) (hq : q < h.length) :
    heapGet (h ++ [d]) q = heapGet h q := by
  simp only [heapGet]
  exact List.getD_append _ _ _ _ hq

theorem heapGet_set_ne (h : Heap) (i : Ptr) (d : DataFrame) (q : Ptr) (hne : q ≠ i) :
    heapGet (heapSet h i d) q = heapGet h q := by
  simp only [heapGet, heapSet, List.getD_eq_getElem?_getD]
  rw [List.getElem?_set_ne (Ne.symm hne)]

theorem heapGrows_refl (h : Heap) : HeapGrows h h :=
  ⟨le_refl _, fun _ _ => rfl⟩

theorem heapGrows_trans {h1 h2 h3 : Heap} (g12 : HeapGrows h1 h2) (g23 : HeapGrows h2 h3) :
    HeapGrows h1 h3 :=
  ⟨le_trans g12.1 g23.1,
   fun q hq => (g23.2 q (lt_of_lt_of_le hq g12.1)).trans (g12.2 q hq)⟩

theorem heapGrows_snoc {h h' : Heap} (g : HeapGrows h h') (d : DataFrame) :
    HeapGrows h (heapAlloc h' d).1 := by
  refine heapGrows_trans g ⟨?_, fun q hq => ?_⟩
  · simp [heapAlloc]
  · exact heapGet_append h' d q hq

theorem heapGrows_set {h h' : Heap} (g : HeapGrows h h') {i : Ptr} (hi : h.length ≤ i)
    (d : DataFrame) : HeapGrows h (heapSet h' i d) := by
  refine ⟨?_, fun q hq => ?_⟩
  · simpa [heapSet] using g.1
  · rw [heapGet_set_ne h' i d q (Nat.ne_of_lt (lt_of_lt_of_le hq hi)), g.2 q hq]

theorem subplotStep_grows (p : Ptr) (acc : Heap × List (String × Lineplot))
    (condition : String) : HeapGrows acc.1 (subplotStep p acc condition).1 := by
  unfold subplotStep
  by_cases hc : strContains condition "BP" = true
  · simp only [hc, if_true]
    refine heapGrows_snoc (heapGrows_set (heapGrows_snoc (heapGrows_snoc
      (heapGrows_refl acc.1) _) _) ?_ _) _
    simp [heapAlloc]
  · simp only [hc, if_false]
    exact heapGrows_snoc (heapGrows_refl acc.1) _

theorem foldl_subplotStep_grows (p : Ptr) (conds : List String)
    (acc : Heap × List (String × Lineplot)) :
    HeapGrows acc.1 (conds.foldl (subplotStep p) acc).1 := by
  induction conds generalizing acc with
  | nil => exact heapGrows_refl _
  | cons c cs ih =>
      exact heapGrows_trans (subplotStep_grows p acc c) (ih _)

theorem foldl_subplotStep_grows_pair (p : Ptr) (conds : List String) (h : Heap)
    (plots : List (String × Lineplot)) :
    HeapGrows h (conds.foldl (subplotStep p) (h, plots)).1 :=
  foldl_subplotStep_grows p conds (h, plots)

theorem plot_lineplots_grows (h : Heap) (results : Ptr)
    (experiment_folder dataset suffix : String) :
    HeapGrows h (plot_lineplots h results experiment_folder dataset suffix).1 := by
  unfold plot_lineplots
  dsimp only
  exact heapGrows_trans
    (heapGrows_snoc (heapGrows_snoc (heapGrows_snoc (heapGrows_refl h) _) _) _)
    (foldl_subplotStep_grows_pair _ plotConditions _ [])

/-- C9: `plot_lineplots` never mutates its caller's DataFrame: the cell the
caller's `results` pointer names — and every other pre-existing heap cell —
holds exactly the same rows and values after the call as before; filtering
and the BP-row duplication with `h_lr` shifted by `+0.1` operate only on
copies. -/
theorem plot_lineplots_preserves_caller_frame (h : Heap) (results : Ptr)
    (experiment_folder dataset suffix : String) (q : Ptr) (hq : q < h.length) :
    heapGet (plot_lineplots h results experiment_folder dataset suffix).1 q = heapGet h q :=
  (plot_lineplots_grows h results experiment_folder dataset suffix).2 q hq

/-- Witness for C9 at a concrete one-cell heap. -/
theorem plot_lineplots_preserves_caller_frame_witness :
    0 < ([[⟨"PC-sgd-0.9", mkRat 1 5, "mnist", 4, mkRat 1 2⟩]] : Heap).length ∧
    heapGet (plot_lineplots [[⟨"PC-sgd-0.9", mkRat 1 5, "mnist", 4, mkRat 1 2⟩]]
        0 "artifacts" "mnist" "").1 0 =
      heapGet [[⟨"PC-sgd-0.9", mkRat 1 5, "mnist", 4, mkRat 1 2⟩]] 0 :=
  ⟨by decide,
   plot_lineplots_preserves_caller_frame
     [[⟨"PC-sgd-0.9", mkRat 1 5, "mnist", 4, mkRat 1 2⟩]] 0 "artifacts" "mnist" "" 0
     (by decide)⟩

/-! ## Saving, axes and filtering of `plot_lineplots` -/

/-- C1: every invocation of `plot_lineplots` saves the rendered plot into the
given artifact directory, under the filename
`lr-scaling-lineplot-<dataset>[-<suffix>].pdf` — a PDF filename keyed by the
dataset name and the experiment-condition suffix. -/
theorem plot_lineplots_saves_pdf_keyed_by_dataset (h : Heap) (results : Ptr)
    (experiment_folder dataset suffix : String) :
    (plot_lineplots h results experiment_folder dataset suffix).2.savedDir =
      experiment_folder ∧
    (plot_lineplots h results experiment_folder dataset suffix).2.savedFile =
      plotFilename dataset suffix ∧
    plotFilename dataset suffix =
      ("lr-scaling-lineplot-" ++ dataset ++
        (if suffix.length > 0 then "-" ++ suffix else "")) ++ ".pdf" :=
  ⟨rfl, rfl, rfl⟩

/-- Counterexample to C5: at a concrete invocation, the complete list of
plot dimensions of `plot_lineplots` is: x-axis `config.h_lr` (state learning
rate), hue `config.hidden_dims` (hidden width) and one subplot per
optimizer condition — the weight learning rate (`config.w_lr`) and the
activation function are not plot dimensions. -/
theorem plot_lineplots_axes_counterexample :
    ((plot_lineplots [[]] 0 "artifacts" "fashion_mnist" "").2.subplots.map
        (fun e => (e.1, e.2.x, e.2.y, e.2.hue))) =
      [ ("PC-sgd-0.9", "config.h_lr", "results.accuracy", "config.hidden_dims")
      , ("PC-adamw-0.9", "config.h_lr", "results.accuracy", "config.hidden_dims")
      , ("BP-sgd-0.9", "config.h_lr", "results.accuracy", "config.hidden_dims") ] ∧
    ((plot_lineplots [[]] 0 "artifacts" "fashion_mnist" "").2.subplots.map
        (fun e => e.2.x)).contains "config.w_lr" = false ∧
    ((plot_lineplots [[]] 0 "artifacts" "fashion_mnist" "").2.subplots.map
        (fun e => e.2.hue)).contains "config.w_lr" = false ∧
    ((plot_lineplots [[]] 0 "artifacts" "fashion_mnist" "").2.subplots.map
        (fun e => e.2.x)).contains "config.activation_fn" = false := by
  refine ⟨rfl, by decide, by decide, by decide⟩

/-- C5 (amended): the notebook's plot varies the accuracy curve over the
state learning rate (x axis `config.h_lr`), the hidden-layer width (hue
`config.hidden_dims`) and the optimizer choice (one subplot per condition
`PC-sgd-0.9`, `PC-adamw-0.9`, `BP-sgd-0.9`); the weight learning rate and
the activation function are not varied in the plot. -/
theorem plot_lineplots_axes (h : Heap) (results : Ptr)
    (experiment_folder dataset suffix : String) :
    ((plot_lineplots h results experiment_folder dataset suffix).2.subplots.map
        Prod.fst) = plotConditions ∧
    ((plot_lineplots h results experiment_folder dataset suffix).2.subplots.all
        (fun e => e.2.x == "config.h_lr" && e.2.y == "results.accuracy" &&
          e.2.hue == "config.hidden_dims")) = true :=
  ⟨rfl, rfl⟩

/-- Counterexample to C8: a row whose condition contains both `"BP"` and
`"PC"` and whose `config.h_lr` is `0.5 ≥ 0.3` is kept by the filter of
`plot_lineplots`, so "keeps a row whose condition contains PC if and only if
`config.h_lr < 0.3`" fails as stated. -/
theorem filter_keeps_bp_pc_row_counterexample :
    condMask ⟨"BP-PC", mkRat 1 2, "two_moons", 512, mkRat 1 2⟩ = true ∧
    strContains "BP-PC" "PC" = true ∧
    ¬ ((mkRat 1 2 : ℚ) < ratPointThree) ∧
    (⟨"BP-PC", mkRat 1 2, "two_moons", 512, mkRat 1 2⟩ : Row) ∈
      filterStep [⟨"BP-PC", mkRat 1 2, "two_moons", 512, mkRat 1 2⟩] := by
  refine ⟨by decide, by decide, by decide, by decide⟩

/-- C8 (amended): the filter of `plot_lineplots` keeps every row whose
condition contains `"BP"` regardless of its state learning rate; a row whose
condition contains `"PC"` but not `"BP"` is kept if and only if its
`config.h_lr` is strictly less than `0.3`; rows containing neither are
excluded. -/
theorem filter_step_rule (df : DataFrame) (r : Row) :
    (strContains r.condition "BP" = true → (r ∈ filterStep df ↔ r ∈ df)) ∧
    (strContains r.condition "BP" = false → strContains r.condition "PC" = true →
      (r ∈ filterStep df ↔ r ∈ df ∧ r.h_lr < ratPointThree)) ∧
    (strContains r.condition "BP" = false → strContains r.condition "PC" = false →
      r ∉ filterStep df) := by
  refine ⟨fun hbp => ?_, fun hbp hpc => ?_, fun hbp hpc hmem => ?_⟩
  · simp [filterStep, List.mem_filter, condMask, hbp]
  · simp [filterStep, List.mem_filter, condMask, hbp, hpc]
  · have hc := (List.mem_filter.mp hmem).2
    simp [condMask, hbp, hpc] at hc

/-- Witness for C8 (amended) at a concrete row and frame. -/
theorem filter_step_rule_witness :
    (⟨"BP-sgd-0.9", 1, "two_moons", 512, mkRat 1 2⟩ : Row) ∈
      filterStep [⟨"BP-sgd-0.9", 1, "two_moons", 512, mkRat 1 2⟩] :=
  ((filter_step_rule [⟨"BP-sgd-0.9", 1, "two_moons", 512, mkRat 1 2⟩]
      ⟨"BP-sgd-0.9", 1, "two_moons", 512, mkRat 1 2⟩).1 (by decide)).mpr (by decide)

/-! ## Configuration records -/

/-- C2: in every experiment configuration record of the repository, each
hyperparameter annotated with a sampling-specification field carries all
three fields `sample_type`, `sample_space` and `default`. -/
theorem all_sampling_specs_complete :
    allConfigs.all samplingSpecsComplete = true := by decide

/-- Counterexample to C4: the sweep-grid experiment configuration
(`src/unnamed/part_000`) contains no weight-decay and no batch-size
hyperparameter, so not every configuration record carries all nine listed
hyperparameters. -/
theorem sweep_grid_lacks_wd_and_batch_size :
    hasAllNineHyperparameters sweepGridConfig = false ∧
    hasWeightDecay sweepGridConfig = false ∧
    hasBatchSize sweepGridConfig = false := by decide

/-- C4 (amended): every experiment configuration record is a hierarchical
mapping containing learning rates, momentum, an activation-function choice,
an optimizer name, the relaxation-step count `T` and an epoch count; weight
decay, batch size and layer dimensions each occur in some records (and at
least one record carries all nine kinds), but not in every record. -/
theorem configs_hyperparameter_coverage :
    (allConfigs.all fun c =>
        hasLearningRate c && hasMomentum c && hasActivationFn c &&
        hasOptimizerName c && hasRelaxationT c && hasEpochs c) = true ∧
    allConfigs.any hasWeightDecay = true ∧
    allConfigs.any hasBatchSize = true ∧
    allConfigs.any hasLayerDims = true ∧
    allConfigs.any hasAllNineHyperparameters = true := by decide

/-! ## The job-submission wrapper -/

/-- Counterexample to C3: the wrapper does not pass exactly the four
experiment parameters (study name, GPU list, trial count, config path): its
flag list also carries `--exe bp_hypertune` and `--tuner ssh`. -/
theorem run_script_passes_more_than_four_flags :
    (runScript "mnist").args.map Prod.fst ≠
      ["--study", "--gpus", "--n_trials", "--config"] ∧
    flagValue (runScript "mnist") "--exe" = some "bp_hypertune" ∧
    flagValue (runScript "mnist") "--tuner" = some "ssh" := by
  refine ⟨by decide, rfl, rfl⟩

/-- C3 (amended): the wrapper invokes the hyperparameter-tuning driver
(`python -m stune`) with a study name derived from its single positional
argument, a GPU list, a trial count and a config path derived from the same
argument — and additionally an executable name (`--exe`) and a tuner
backend (`--tuner ssh`). -/
theorem run_script_invocation (study : String) :
    (runScript study).module = "stune" ∧
    flagValue (runScript study) "--study" = some ("bp_" ++ study) ∧
    flagValue (runScript study) "--gpus" = some "0,1,2,3,4,5,6,7" ∧
    flagValue (runScript study) "--n_trials" = some "32:8" ∧
    flagValue (runScript study) "--config" = some ("bp_" ++ study ++ "_hypertune.yaml") ∧
    flagValue (runScript study) "--exe" = some "bp_hypertune" ∧
    flagValue (runScript study) "--tuner" = some "ssh" ∧
    (runScript study).args.map Prod.fst =
      ["--exe", "--study", "--gpus", "--n_trials", "--tuner", "--config"] :=
  ⟨rfl, rfl, rfl, rfl, rfl, rfl, rfl, rfl⟩

/-- C6: parallelism is delegated to the external tuner: the wrapper requests
a GPU list and a trial count from the driver, and every hypertune
configuration record requests exactly one GPU per task.  (The embedded
repository operations are pure functions; no scheduling, locking or
cancellation construct exists to embed.) -/
theorem parallelism_delegated_to_tuner (study : String) :
    flagValue (runScript study) "--gpus" = some "0,1,2,3,4,5,6,7" ∧
    flagValue (runScript study) "--n_trials" = some "32:8" ∧
    hypertuneConfigs.all requestsOneGpuPerTask = true :=
  ⟨rfl, rfl, by decide⟩

/-! ## Error propagation -/

/-- C7: the repository's glue code composes fallible external operations
without catching, transforming or suppressing anything: a load error, a
save error or a driver-execution error is returned to the caller
unmodified. -/
theorem errors_propagate_unmodified (e : String) (hp : Heap × Ptr)
    (savefig : String → String → Except String Unit)
    (exec : StuneInvocation → Except String Unit)
    (experiment_folder dataset suffix study : String) :
    notebookRun (.error e) savefig experiment_folder dataset suffix = .error e ∧
    (savefig (plot_lineplots hp.1 hp.2 experiment_folder dataset suffix).2.savedDir
        (plot_lineplots hp.1 hp.2 experiment_folder dataset suffix).2.savedFile =
          .error e →
      notebookRun (.ok hp) savefig experiment_folder dataset suffix = .error e) ∧
    (exec (runScript study) = .error e → wrapperRun exec study = .error e) := by
  obtain ⟨h, p⟩ := hp
  refine ⟨rfl, fun hsf => ?_, fun hex => ?_⟩
  · have hred : notebookRun (.ok (h, p)) savefig experiment_folder dataset suffix =
        (savefig (plot_lineplots h p experiment_folder dataset suffix).2.savedDir
          (plot_lineplots h p experiment_folder dataset suffix).2.savedFile).bind
          (fun _ => .ok (plot_lineplots h p experiment_folder dataset suffix).2) := rfl
    rw [hred, hsf]
    rfl
  · simpa [wrapperRun] using hex

/-- Witness for C7 at concrete external operations. -/
theorem errors_propagate_unmodified_witness :
    notebookRun (.error "boom") (fun _ _ => .ok ()) "artifacts" "mnist" "" =
      .error "boom" ∧
    wrapperRun (fun _ => .error "io") "mnist" = .error "io" :=
  ⟨(errors_propagate_unmodified "boom" ([], 0) (fun _ _ => .ok ())
      (fun _ => .error "io") "artifacts" "mnist" "" "mnist").1,
   (errors_propagate_unmodified "io" ([], 0) (fun _ _ => .ok ())
      (fun _ => .error "io") "artifacts" "mnist" "" "mnist").2.2 rfl⟩

/-! ## `mark_max` -/

theorem mem_insertSorted (x y : ℚ) (l : List ℚ) :
    y ∈ insertSorted x l ↔ y = x ∨ y ∈ l := by
  induction l with
  | nil => simp [insertSorted]
  | cons z zs ih =>
      rw [insertSorted]
      split
      · simp [List.mem_cons]
      · simp only [List.mem_cons, ih]
        tauto

theorem nodup_insertSorted (x : ℚ) (l : List ℚ) (hx : x ∉ l) (hl : l.Nodup) :
    (insertSorted x l).Nodup := by
  induction l with
  | nil => simp [insertSorted]
  | cons z zs ih =>
      rw [insertSorted]
      obtain ⟨hz, hzs⟩ := List.nodup_cons.mp hl
      have hxz : x ≠ z := fun heq => hx (heq ▸ List.mem_cons_self z zs)
      have hxzs : x ∉ zs := fun hm => hx (List.mem_cons_of_mem z hm)
      split
      · exact List.nodup_cons.mpr ⟨hx, hl⟩
      · refine List.nodup_cons.mpr ⟨?_, ih hxzs hzs⟩
        intro hm
        rcases (mem_insertSorted x z zs).mp hm with hzx | hm2
        · exact hxz hzx.symm
        · exact hz hm2

theorem mem_sortQ (y : ℚ) (l : List ℚ) : y ∈ sortQ l ↔ y ∈ l := by
  induction l with
  | nil => simp [sortQ]
  | cons x xs ih => simp [sortQ, mem_insertSorted, ih]

theorem nodup_sortQ (l : List ℚ) (h : l.Nodup) : (sortQ l).Nodup := by
  induction l with
  | nil => simp [sortQ]
  | cons x xs ih =>
      rw [sortQ]
      obtain ⟨hx, hxs⟩ := List.nodup_cons.mp h
      exact nodup_insertSorted x (sortQ xs)
        (fun hm => hx ((mem_sortQ x xs).mp hm)) (ih hxs)

theorem maxAccRow_mem (r0 : RowM) (rest : List RowM) :
    maxAccRow r0 rest ∈ r0 :: rest := by
  induction rest generalizing r0 with
  | nil => simp [maxAccRow]
  | cons r rs ih =>
      have hstep : maxAccRow r0 (r :: rs) =
          maxAccRow (if r0.accuracy < r.accuracy then r else r0) rs := rfl
      rw [hstep]
      rcases List.mem_cons.mp (ih (if r0.accuracy < r.accuracy then r else r0)) with h1 | h1
      · rw [h1]
        split <;> simp
      · simp [List.mem_cons, h1]

theorem maxAccRow_le (r0 : RowM) (rest : List RowM) :
    ∀ x ∈ r0 :: rest, x.accuracy ≤ (maxAccRow r0 rest).accuracy := by
  induction rest generalizing r0 with
  | nil =>
      intro x hx
      rcases List.mem_cons.mp hx with h1 | h1
      · exact h1 ▸ le_refl _
      · simp at h1
  | cons r rs ih =>
      intro x hx
      have hstep : maxAccRow r0 (r :: rs) =
          maxAccRow (if r0.accuracy < r.accuracy then r else r0) rs := rfl
      rw [hstep]
      have hr0 : r0.accuracy ≤ (if r0.accuracy < r.accuracy then r else r0).accuracy := by
        split
        · exact le_of_lt (by assumption)
        · exact le_refl _
      have hr : r.accuracy ≤ (if r0.accuracy < r.accuracy then r else r0).accuracy := by
        split
        · exact le_refl _
        · exact le_of_not_lt (by assumption)
      have hhead := ih (if r0.accuracy < r.accuracy then r else r0)
        (if r0.accuracy < r.accuracy then r else r0) (List.mem_cons_self _ _)
      rcases List.mem_cons.mp hx with h1 | h1
      · rw [h1]
        exact le_trans hr0 hhead
      · rcases List.mem_cons.mp h1 with h2 | h2
        · rw [h2]
          exact le_trans hr hhead
        · exact ih (if r0.accuracy < r.accuracy then r else r0) x
            (List.mem_cons_of_mem _ h2)

theorem length_filterMap_of_isSome {α β : Type} (f : α → Option β) (l : List α)
    (h : ∀ a ∈ l, (f a).isSome = true) : (l.filterMap f).length = l.length := by
  induction l with
  | nil => rfl
  | cons x xs ih =>
      rw [List.filterMap_cons]
      cases hfx : f x with
      | none =>
          have := h x (List.mem_cons_self x xs)
          rw [hfx] at this
          simp at this
      | some b =>
          simp only [List.length_cons]
          rw [ih (fun a ha => h a (List.mem_cons_of_mem x ha))]

theorem mem_groupKeys (rows : List RowM) (d : ℚ) :
    d ∈ groupKeys rows ↔ ∃ r, r ∈ rows ∧ r.h_dim = d := by
  rw [groupKeys, mem_sortQ, List.mem_dedup, List.mem_map]

theorem groupPoint_isSome (rows : List RowM) (d : ℚ) (hd : d ∈ groupKeys rows) :
    (groupPoint rows d).isSome = true := by
  obtain ⟨r, hr, hrd⟩ := (mem_groupKeys rows d).mp hd
  have hmem : r ∈ rows.filter (fun r => r.h_dim == d) :=
    List.mem_filter.mpr ⟨hr, by simp [hrd]⟩
  rw [groupPoint]
  cases hf : rows.filter (fun r => r.h_dim == d) with
  | nil => rw [hf] at hmem; simp at hmem
  | cons r0 rest => simp

/-- C10: for every DataFrame with columns `h_dim`, `h_lr`, `accuracy`,
`mark_max` scatters exactly one point per distinct `h_dim` value — the group
keys are duplicate-free and are exactly the `h_dim` values occurring in the
data — and the point scattered for a group is the `(h_lr, accuracy)` pair of
a row of that group attaining the maximal accuracy within the group. -/
theorem mark_max_spec (rows : List RowM) :
    (mark_max rows).length = (groupKeys rows).length ∧
    (groupKeys rows).Nodup ∧
    (∀ d, d ∈ groupKeys rows ↔ ∃ r, r ∈ rows ∧ r.h_dim = d) ∧
    (∀ d, d ∈ groupKeys rows →
      ∃ r, r ∈ rows ∧ r.h_dim = d ∧
        groupPoint rows d = some (r.h_lr, r.accuracy) ∧
        ∀ x, x ∈ rows → x.h_dim = d → x.accuracy ≤ r.accuracy) := by
  refine ⟨?_, ?_, mem_groupKeys rows, ?_⟩
  · exact length_filterMap_of_isSome _ _ (groupPoint_isSome rows)
  · exact nodup_sortQ _ (List.nodup_dedup _)
  · intro d hd
    cases hf : rows.filter (fun r => r.h_dim == d) with
    | nil =>
        exfalso
        obtain ⟨r, hr, hrd⟩ := (mem_groupKeys rows d).mp hd
        have hmem : r ∈ rows.filter (fun r => r.h_dim == d) :=
          List.mem_filter.mpr ⟨hr, by simp [hrd]⟩
        rw [hf] at hmem
        simp at hmem
    | cons r0 rest =>
        refine ⟨maxAccRow r0 rest, ?_, ?_, ?_, ?_⟩
        · have := maxAccRow_mem r0 rest
          rw [← hf] at this
          exact (List.mem_filter.mp this).1
        · have := maxAccRow_mem r0 rest
          rw [← hf] at this
          have hb := (List.mem_filter.mp this).2
          exact eq_of_beq hb
        · rw [groupPoint, hf]
        · intro x hx hxd
          have hxmem : x ∈ rows.filter (fun r => r.h_dim == d) :=
            List.mem_filter.mpr ⟨hx, by simp [hxd]⟩
          rw [hf] at hxmem
          exact maxAccRow_le r0 rest x hxmem

/-- Witness for C10's per-group clause at a concrete frame. -/
theorem mark_max_spec_witness :
    ∃ r, r ∈ [(⟨1, mkRat 1 10, mkRat 1 2⟩ : RowM), ⟨1, mkRat 1 5, mkRat 9 10⟩,
        ⟨2, mkRat 3 10, mkRat 7 10⟩] ∧ r.h_dim = 1 ∧
      groupPoint [⟨1, mkRat 1 10, mkRat 1 2⟩, ⟨1, mkRat 1 5, mkRat 9 10⟩,
        ⟨2, mkRat 3 10, mkRat 7 10⟩] 1 = some (r.h_lr, r.accuracy) ∧
      ∀ x, x ∈ [(⟨1, mkRat 1 10, mkRat 1 2⟩ : RowM), ⟨1, mkRat 1 5, mkRat 9 10⟩,
        ⟨2, mkRat 3 10, mkRat 7 10⟩] → x.h_dim = 1 → x.accuracy ≤ r.accuracy :=
  (mark_max_spec [⟨1, mkRat 1 10, mkRat 1 2⟩, ⟨1, mkRat 1 5, mkRat 9 10⟩,
    ⟨2, mkRat 3 10, mkRat 7 10⟩]).2.2.2 1 (by decide)

end Pcax
